import Mathlib

/-!
Verification of the Lender Eligibility & Leverage Engine (`src/main.py`).

The engine's data model is a catalogue of lender records: each record is a
mapping from attribute name to a scalar cell value (string, number, or
absent/NULL).  We embed the cells as `Cell`, records as association lists
(Python dicts preserve insertion order and have unique keys, so an
association list with the dict's iteration order is a faithful model), the
deal parameters as the structure `DealEssentials`, Python floats as exact
rationals, and Python functions that can raise as `Option`-valued
functions (`none` = an exception escapes).

String primitives (lower-casing, substring containment, `str.replace`,
`str.strip`, the concrete regular-expression token extractors used by the
code, Python `float`/`int` conversion) are modelled directly on `List Char`
so that everything is executable and kernel-reducible.
-/

unseal Rat.add Rat.mul Rat.sub Rat.inv

/-- A scalar cell value of a lender record: absent (Python `None`), free
text, or an integer.  (Numeric spreadsheet cells are modelled as integers
or as their textual form; the claims under verification only hinge on
textual and absent cells.) -/
inductive Cell where
  | none : Cell
  | str : String → Cell
  | int : Int → Cell
deriving DecidableEq, Repr

/-- Python truthiness of a cell: `None`, `''` and `0` are falsy. -/
def Cell.truthy : Cell → Bool
  | Cell.none => false
  | Cell.str s => !(s = "")
  | Cell.int n => !(n = 0)

/-- Python `str()` of a cell (`str(None) = "None"`). -/
def Cell.pyStr : Cell → String
  | Cell.none => "None"
  | Cell.str s => s
  | Cell.int n => toString n

/-- A lender record: attribute/value pairs in dict iteration order. -/
abbrev Lender : Type := List (String × Cell)

/-- Python `d.get(key, default)`. -/
def pyGet (l : Lender) (key : String) (dflt : Cell) : Cell :=
  match List.find? (fun p => p.1 = key) l with
  | Option.none => dflt
  | Option.some p => p.2

/-- `str(x or '')`: the empty string when the cell is falsy. -/
def Cell.strOrEmpty (c : Cell) : String :=
  if c.truthy then c.pyStr else ""

/-- ASCII lower-casing of a string (Python `str.lower()` on the engine's
ASCII attribute values). -/
def strLower (s : String) : String :=
  ⟨s.data.map Char.toLower⟩

/-- Python `str.strip()`: drop whitespace from both ends. -/
def pyStrip (s : String) : String :=
  ⟨(s.data.dropWhile Char.isWhitespace).reverse.dropWhile Char.isWhitespace |>.reverse⟩

/-- Is `sub` a contiguous substring of `l`?  (Python `sub in s`.) -/
def subInList (sub : List Char) : List Char → Bool
  | [] => sub.isEmpty
  | c :: cs => sub.isPrefixOf (c :: cs) || subInList sub cs

/-- Python `sub in s` on strings. -/
def pyIn (sub s : String) : Bool := subInList sub.data s.data

/-- One pass of Python `str.replace` on character lists: replace every
non-overlapping occurrence of `pat` by `rep`, scanning left to right.
Structural recursion on a fuel argument (any fuel at least the length of
the list gives the replacement semantics; each step consumes at least one
character). -/
def replaceList (pat rep : List Char) : Nat → List Char → List Char
  | 0, l => l
  | _ + 1, [] => []
  | fuel + 1, c :: cs =>
    if pat ≠ [] ∧ pat.isPrefixOf (c :: cs) then
      rep ++ replaceList pat rep fuel (List.drop (pat.length - 1) cs)
    else
      c :: replaceList pat rep fuel cs

/-- Python `s.replace(pat, rep)`. -/
def pyReplace (s pat rep : String) : String :=
  ⟨replaceList pat.data rep.data s.data.length s.data⟩

/-- Numeric value of a digit run (most significant first). -/
def digitsToNat (l : List Char) : Nat :=
  l.foldl (fun a c => 10 * a + (c.toNat - 48)) 0

/-- The text matched (greedily) by `\d+\.?\d*` anchored at the head of `l`,
which must start with a digit. -/
def grabNumTok (l : List Char) : List Char :=
  let ds := l.takeWhile Char.isDigit
  let rest := l.drop ds.length
  match rest with
  | '.' :: rest2 => ds ++ '.' :: rest2.takeWhile Char.isDigit
  | _ => ds

/-- Rational value of a token matched by `\d+\.?\d*` (Python `float` on
such a token never fails). -/
def numTokVal (l : List Char) : ℚ :=
  let ip := l.takeWhile Char.isDigit
  let rest := l.drop ip.length
  match rest with
  | '.' :: rest2 =>
    let fp := rest2.takeWhile Char.isDigit
    (digitsToNat ip : ℚ) + (digitsToNat fp : ℚ) / (10 ^ fp.length : ℚ)
  | _ => (digitsToNat ip : ℚ)

/-- First match of `re.search(r'(\d+\.?\d*)', s)`, as a rational. -/
def findNumTok : List Char → Option ℚ
  | [] => Option.none
  | c :: cs =>
    if c.isDigit then Option.some (numTokVal (c :: cs)) else findNumTok cs

/-- All matches of `re.findall(r'(\d+\.?\d*)', s)`, left to right,
non-overlapping, as rationals.  Structural recursion on fuel (each step
consumes at least one character, so fuel = length suffices). -/
def findAllNumTokAux : Nat → List Char → List ℚ
  | 0, _ => []
  | _ + 1, [] => []
  | fuel + 1, c :: cs =>
    if c.isDigit then
      numTokVal (c :: cs) :: findAllNumTokAux fuel ((c :: cs).drop (grabNumTok (c :: cs)).length)
    else
      findAllNumTokAux fuel cs

/-- All matches of `re.findall(r'(\d+\.?\d*)', s)`. -/
def findAllNumTok (l : List Char) : List ℚ :=
  findAllNumTokAux l.length l

/-- First match of `re.search(r'(\d+)', s)`: the first maximal digit run,
as an integer. -/
def findIntTok : List Char → Option Int
  | [] => Option.none
  | c :: cs =>
    if c.isDigit then Option.some (digitsToNat ((c :: cs).takeWhile Char.isDigit))
    else findIntTok cs

/-- First match of `re.search(r'[\d.]+', s)`: the first maximal run of
digits and dots, verbatim. -/
def findFloatRun : List Char → Option (List Char)
  | [] => Option.none
  | c :: cs =>
    if c.isDigit || c = '.' then
      Option.some ((c :: cs).takeWhile (fun d => d.isDigit || d = '.'))
    else findFloatRun cs

/-- Python `float()` on a run of digits and dots: valid iff it has at least
one digit and at most one dot ("1.2.3" or "." raise `ValueError`). -/
def pyFloatOfRun (l : List Char) : Option ℚ :=
  if l.any Char.isDigit ∧ l.count '.' ≤ 1 then
    let ip := l.takeWhile Char.isDigit
    let rest := l.drop ip.length
    match rest with
    | [] => Option.some (digitsToNat ip : ℚ)
    | _ :: fp => Option.some ((digitsToNat ip : ℚ) + (digitsToNat fp : ℚ) / (10 ^ fp.length : ℚ))
  else Option.none

/-- Python `int()` on a string: strip whitespace, optional sign, then a
non-empty digit run and nothing else; anything else raises (`none`). -/
def pyInt (s : String) : Option Int :=
  let t := (pyStrip s).data
  let core : Option (List Char) :=
    match t with
    | '+' :: r => Option.some r
    | '-' :: r => Option.some r
    | r => Option.some r
  match core with
  | Option.none => Option.none
  | Option.some ds =>
    if ds ≠ [] ∧ ds.all Char.isDigit then
      match t with
      | '-' :: _ => Option.some (-(digitsToNat ds : Int))
      | _ => Option.some (digitsToNat ds : Int)
    else Option.none

/-! ## Value parsers (`src/main.py` lines 728-753 and 843-871) -/

/-- `parse_number` (main.py 843-857): strip `£` and `,`, expand `k`/`K` by
appending `000` and `m`/`M` by appending `000000` (a textual replacement,
not a multiplication), then `float()` on the first `[\d.]+` run; `None` on
absent input or when no run exists or `float` raises. -/
def parse_number (val : Cell) : Option ℚ :=
  match val with
  | Cell.none => Option.none
  | _ =>
    let s0 := val.pyStr
    let s1 := pyReplace (pyReplace (pyReplace (pyReplace (pyReplace (pyReplace
                s0 "£" "") "," "") "k" "000") "K" "000") "m" "000000") "M" "000000"
    match findFloatRun s1.data with
    | Option.none => Option.none
    | Option.some run => pyFloatOfRun run

/-- `parse_ltv` (main.py 859-871): lower-case, strip `%`, `gross`, `net`,
then `float()` on the first `[\d.]+` run. -/
def parse_ltv (val : Cell) : Option ℚ :=
  match val with
  | Cell.none => Option.none
  | _ =>
    let s1 := pyReplace (pyReplace (pyReplace (strLower val.pyStr) "%" "") "gross" "") "net" ""
    match findFloatRun s1.data with
    | Option.none => Option.none
    | Option.some run => pyFloatOfRun run

/-- `parse_proc_fee` (main.py 728-739): default 2.0; 1.5 when the text
contains "negotiable" or "no set"; else the first `\d+\.?\d*` token. -/
def parse_proc_fee (proc_fee : Cell) : ℚ :=
  if !proc_fee.truthy then 2
  else
    let proc_str := strLower proc_fee.pyStr
    if pyIn "negotiable" proc_str || pyIn "no set" proc_str then 3 / 2
    else
      match findNumTok proc_str.data with
      | Option.some v => v
      | Option.none => 2

/-- `parse_rate_band_midpoint` (main.py 742-753): mean of the first two
`\d+\.?\d*` tokens if two or more are found, else the single token, else
no value. -/
def parse_rate_band_midpoint (rate_band : Cell) : Option ℚ :=
  if !rate_band.truthy then Option.none
  else
    let rate_str := strLower rate_band.pyStr
    match findAllNumTok rate_str.data with
    | r0 :: r1 :: _ => Option.some ((r0 + r1) / 2)
    | [r0] => Option.some r0
    | [] => Option.none

/-- The lender-minimum-interest-months parse inlined in
`estimate_net_from_gross` (main.py 252-262): default 3; 3 when the text
contains "depends"; else the first `\d+` integer token. -/
def parse_min_months (lender_min_months : Cell) : Int :=
  if !lender_min_months.truthy then 3
  else
    let months_str := strLower lender_min_months.pyStr
    if pyIn "depends" months_str then 3
    else
      match findIntTok months_str.data with
      | Option.some n => n
      | Option.none => 3

/-! ## Net advance estimator (`src/main.py` lines 211-370) -/

/-- `estimate_net_from_gross` (main.py 211-279), with the source's inline
fee / rate-band / minimum-months parsing reproduced in place:
`net = gross * (1 - (fee_pct + monthly_rate * max(term, lender_min)) / 100)`,
and `0` when the gross figure is falsy. -/
def estimate_net_from_gross (gross_ltv : ℚ) (rate_band proc_fee : Cell)
    (loan_term_months : Int) (lender_min_months : Cell) : ℚ :=
  if gross_ltv = 0 then 0
  else
    let fee_pct : ℚ :=
      if proc_fee.truthy then
        let proc_str := strLower proc_fee.pyStr
        if pyIn "negotiable" proc_str || pyIn "no set" proc_str then 3 / 2
        else
          match findNumTok proc_str.data with
          | Option.some v => v
          | Option.none => 2
      else 2
    let monthly_rate : ℚ :=
      if rate_band.truthy then
        match findAllNumTok (strLower rate_band.pyStr).data with
        | r0 :: r1 :: _ => (r0 + r1) / 2
        | [r0] => r0
        | [] => 1
      else 1
    let lender_min : Int :=
      if lender_min_months.truthy then
        let months_str := strLower lender_min_months.pyStr
        if pyIn "depends" months_str then 3
        else
          match findIntTok months_str.data with
          | Option.some n => n
          | Option.none => 3
      else 3
    let months_retained : Int := max loan_term_months lender_min
    let interest_deduction : ℚ := monthly_rate * (months_retained : ℚ)
    let total_deduction : ℚ := fee_pct + interest_deduction
    gross_ltv * (1 - total_deduction / 100)

/-- The per-lender net-advance check result (main.py 289-301). -/
structure CheckResult where
  passes : Bool
  warning : Bool
  comfortable : Bool
  message : Option String
  is_net_lender : Bool
deriving DecidableEq, Repr

/-- The initial `result` dict of `check_net_ltv_shortfall` (main.py 295-301). -/
def defaultCheckResult : CheckResult :=
  { passes := true, warning := false, comfortable := false,
    message := Option.none, is_net_lender := false }

/-- The "fails" advisory string (main.py 361). -/
def insufficientMsg (loan_term_months : Int) : String :=
  "Net advance likely insufficient for " ++ toString loan_term_months ++
    "m term after fees & interest retention"

/-- The "warns" advisory string (main.py 365). -/
def tightMsg (loan_term_months : Int) : String :=
  "Net advance may be tight for " ++ toString loan_term_months ++
    "m term - verify with lender"

/-- The classification block of `check_net_ltv_shortfall` (main.py
353-369): skipped entirely when the estimate is falsy (exactly zero);
otherwise `shortfall_pct = (R - est) / R * 100` (0 when `R <= 0`) with the
`> 5` / `> 0` / `< -5` boundaries. -/
def classifyNet (required_net_ltv estimated_net : ℚ) (loan_term_months : Int)
    (result : CheckResult) : CheckResult :=
  if estimated_net = 0 then result
  else
    let shortfall := required_net_ltv - estimated_net
    let shortfall_pct : ℚ :=
      if required_net_ltv > 0 then shortfall / required_net_ltv * 100 else 0
    if shortfall_pct > 5 then
      { result with passes := false, message := Option.some (insufficientMsg loan_term_months) }
    else if shortfall_pct > 0 then
      { result with warning := true, message := Option.some (tightMsg loan_term_months) }
    else if shortfall_pct < -5 then
      { result with comfortable := true }
    else result

/-- Does a column name take part in the "net" keyword scan (main.py 308-309)? -/
def netScanCol (col : String) : Bool :=
  pyIn "ltv" (strLower col) || pyIn "advance" (strLower col) || pyIn "bmv" (strLower col)

/-- First loop of `check_net_ltv_shortfall` (main.py 306-314): the word
"net" occurs in some LTV/advance/BMV column value. -/
def netKeywordFlag (lender : Lender) : Bool :=
  lender.any (fun p => netScanCol p.1 && pyIn "net" (strLower p.2.strOrEmpty))

/-- Second loop (main.py 316-328): the first `bmv` column, when its value
is non-empty, contains neither "n/a" nor "not", and parses to an LTV of at
least 90, marks the lender as net-basis. -/
def bmvFlag (lender : Lender) : Bool :=
  match lender.find? (fun p => pyIn "bmv" (strLower p.1)) with
  | Option.none => false
  | Option.some p =>
    let bmv_val := strLower p.2.strOrEmpty
    if !(bmv_val = "") && !(pyIn "n/a" bmv_val) && !(pyIn "not" bmv_val) then
      match parse_ltv p.2 with
      | Option.some q => !(q = 0) && (90 ≤ q)
      | Option.none => false
    else false

/-- Does a column name qualify as the gross-LTV source (main.py 333)?  It
must contain `max_ltv`, `residential` and `1st`. -/
def grossCol (col : String) : Bool :=
  pyIn "max_ltv" (strLower col) && pyIn "residential" (strLower col) &&
    pyIn "1st" (strLower col)

/-- Third loop (main.py 331-339): the value of the first qualifying
gross-LTV column, if any. -/
def grossLookup (lender : Lender) : Option Cell :=
  (lender.find? (fun p => grossCol p.1)).map (fun p => p.2)

/-- `check_net_ltv_shortfall` (main.py 282-370).  `borrower_deposit` and
`is_refurb` are accepted but unused, exactly as in the source. -/
def check_net_ltv_shortfall (lender : Lender) (required_net_ltv : ℚ)
    (borrower_deposit : ℚ) (loan_term_months : Int) (is_refurb : Bool) : CheckResult :=
  let net3 : Bool :=
    match grossLookup lender with
    | Option.some v => pyIn "net" (strLower v.strOrEmpty)
    | Option.none => false
  let is_net : Bool := netKeywordFlag lender || bmvFlag lender || net3
  let result : CheckResult := { defaultCheckResult with is_net_lender := is_net }
  let gross_ltv : Option ℚ :=
    match grossLookup lender with
    | Option.some v => parse_ltv v
    | Option.none => Option.none
  match gross_ltv with
  | Option.none => result
  | Option.some g =>
    if g = 0 then result
    else
      let estimated_net : ℚ :=
        if is_net then g
        else
          estimate_net_from_gross g
            (pyGet lender "approximate_interest_rate_band" (Cell.str ""))
            (pyGet lender "typical_proc_fee" (Cell.str ""))
            loan_term_months
            (pyGet lender "minimum_number_of_months_interest" (Cell.str ""))
      classifyNet required_net_ltv estimated_net loan_term_months result

/-! ## Knockout filter (`src/main.py` lines 377-545) -/

/-- Deal parameters (the fields of `DealEssentials` that the knockout
filter and refiner engine read). -/
structure DealEssentials where
  loan_amount : ℚ
  market_value : ℚ
  deposit_available : Option ℚ := Option.none
  property_type : String := "residential"
  geography : String := "England"
  charge_position : String := "1st"
  loan_term_months : Int := 12
  is_regulated : Bool := false
  is_refurb : Bool := false
  cost_of_works : Option ℚ := Option.none
  entity_type : String := "individual"
  active_refiners : List String := []
deriving DecidableEq, Repr

/-- Round half to even (the rounding of Python's `:,.0f` format). -/
def roundHalfEven (q : ℚ) : Int :=
  let f := Int.floor q
  let r := q - f
  if r < 1 / 2 then f
  else if r > 1 / 2 then f + 1
  else if f % 2 = 0 then f else f + 1

/-- Comma-group a reversed digit list into blocks of three (structural
recursion on fuel; fuel = length suffices). -/
def group3Aux : Nat → List Char → List Char
  | 0, l => l
  | fuel + 1, l =>
    if l.length ≤ 3 then l
    else l.take 3 ++ ',' :: group3Aux fuel (l.drop 3)

/-- Comma-group a reversed digit list into blocks of three. -/
def group3 (l : List Char) : List Char :=
  group3Aux l.length l

/-- Python `f"{q:,.0f}"`: round to an integer, comma-group thousands. -/
def fmtComma0 (q : ℚ) : String :=
  let n := roundHalfEven q
  (if n < 0 then "-" else "") ++ ⟨(group3 (toString n.natAbs).data.reverse).reverse⟩

/-- `get_ltv_column` (main.py 814-841). -/
def get_ltv_column (property_type : String) (is_regulated : Bool)
    (charge_position : String) : String :=
  if is_regulated then "max_ltv_regulated"
  else if property_type = "land_with_pp" then "land_with_planning"
  else if property_type = "land_no_pp" then "land_without_planning"
  else if property_type = "commercial" then "fully_commercial"
  else if property_type = "semi_commercial" then "semi_commercial_mixed_use"
  else if property_type = "residential" then
    (if charge_position = "1st" then "1st_charge_residential"
     else if charge_position = "2nd_supporting" then "supporting_2nd_charge_residential"
     else if charge_position = "2nd_standalone" then "standalone_2nd_charge_resi"
     else if charge_position = "equitable" then "equitable_charge"
     else "1st_charge_residential")
  else "1st_charge_residential"

/-- The entity-type → logical-column map (main.py 438-444). -/
def entityKnockoutCol (entity_type : String) : Option String :=
  if entity_type = "charity" then Option.some "do_you_lend_to_charities"
  else if entity_type = "trust" then Option.some "do_you_lend_to_trusts"
  else if entity_type = "llp" then Option.some "do_you_lend_to_limited_liability_partnerships"
  else if entity_type = "sipp_ssas" then Option.some "can_you_lend_to_sipps_ssas_pensions"
  else if entity_type = "overseas" then Option.some "do_you_lend_to_overseas_entities"
  else Option.none

/-- Deal LTV (main.py 386): `loan / market_value * 100`, 0 when the market
value is not positive. -/
def dealLtv (e : DealEssentials) : ℚ :=
  if e.market_value > 0 then e.loan_amount / e.market_value * 100 else 0

/-- Works ratio (main.py 389-391): `cost_of_works / market_value * 100` on
refurbishment deals with a truthy cost of works, else 0. -/
def dealWorksPct (e : DealEssentials) : ℚ :=
  if e.is_refurb then
    match e.cost_of_works with
    | Option.some c => if !(c = 0) && (e.market_value > 0 : Bool) then c / e.market_value * 100 else 0
    | Option.none => 0
  else 0

/-- A lender record enriched by the knockout filter (main.py 506-520). -/
structure LenderResult where
  lender : Lender
  exclusion_reasons : List String
  calculated_ltv : ℚ
  works_ratio_pct : ℚ
  max_gross_ltv : Option ℚ
  net_ltv_warning : Option String
  net_ltv_comfortable : Bool
  net_check_result : Option CheckResult
deriving DecidableEq, Repr

/-- Rules 1-6 of the per-lender knockout loop (main.py 394-480): the
categorical exclusion reasons, in rule order. -/
def categoricalReasons (e : DealEssentials) (worksPct : ℚ) (lender : Lender) :
    List String :=
  let min_loan := parse_number (pyGet lender "minimum_loan_size" Cell.none)
  let max_loan := parse_number (pyGet lender "maximum_loan_size" Cell.none)
  let r1a := match min_loan with
    | Option.some m =>
      if !(m = 0) && (e.loan_amount < m : Bool) then
        ["Below minimum loan (£" ++ fmtComma0 m ++ ")"] else []
    | Option.none => []
  let r1b := match max_loan with
    | Option.some m =>
      if !(m = 0) && (e.loan_amount > m : Bool) then
        ["Above maximum loan (£" ++ fmtComma0 m ++ ")"] else []
    | Option.none => []
  let r2 :=
    if e.is_regulated &&
        pyIn "no" (strLower (pyGet lender "regulated_bridging_offered" (Cell.str "")).pyStr) then
      ["Doesn\x27t offer regulated bridging"] else []
  let r3 :=
    if pyIn (strLower e.geography)
        (strLower (pyGet lender "which_geographies_don_t_you_lend_in" (Cell.str "")).strOrEmpty) then
      ["Doesn\x27t lend in " ++ e.geography] else []
  let r4 :=
    if e.is_refurb then
      (if pyIn "no" (strLower (pyGet lender
            "do_you_offer_bridging_finance_for_properties_requiring_refurbishment_works"
            (Cell.str "")).pyStr) then
        ["Doesn\x27t offer refurbishment bridging"] else []) ++
      (if worksPct > 0 then
        (if worksPct > 100 then
          (if pyIn "no" (strLower (pyGet lender
                "do_you_fund_very_heavy_works_over_100_cost_of_works_to_value"
                (Cell.str "")).pyStr) then
            ["Doesn\x27t fund very heavy works (>100% ratio)"] else [])
         else if worksPct > 50 then
          (if pyIn "no" (strLower (pyGet lender
                "do_you_fund_heavy_works_50_100_cost_of_works_to_value"
                (Cell.str "")).pyStr) then
            ["Doesn\x27t fund heavy works (50-100% ratio)"] else [])
         else if worksPct > 30 then
          (if pyIn "no" (strLower (pyGet lender
                "do_you_fund_medium_works_30_50_cost_of_works_to_value"
                (Cell.str "")).pyStr) then
            ["Doesn\x27t fund medium works (30-50% ratio)"] else [])
         else [])
       else [])
    else []
  let r5 :=
    match entityKnockoutCol e.entity_type with
    | Option.some col =>
      (match lender.find? (fun p =>
          pyIn (pyReplace col "_" "") (strLower (pyReplace p.1 "_" ""))) with
       | Option.some p =>
         let v := strLower (pyGet lender p.1 (Cell.str "")).pyStr
         if pyIn "no" v && !(pyIn "yes" v) then
           ["Doesn\x27t lend to " ++ e.entity_type] else []
       | Option.none => [])
    | Option.none => []
  let ltv_col := get_ltv_column e.property_type e.is_regulated e.charge_position
  let r6 :=
    match lender.find? (fun p => pyIn (strLower ltv_col) (strLower p.1)) with
    | Option.some p =>
      let raw := pyStrip (strLower p.2.strOrEmpty)
      if !(raw = "") &&
          (pyIn "not available" raw || pyIn "n/a" raw || (raw = "" : Bool) ||
           pyIn "don\x27t lend" raw || pyIn "dont lend" raw) then
        [if e.property_type = "land_with_pp" then "Doesn\x27t lend on land with planning"
         else if e.property_type = "land_no_pp" then "Doesn\x27t lend on land without planning"
         else if e.charge_position = "2nd_standalone" then "Doesn\x27t offer standalone 2nd charge"
         else if e.charge_position = "2nd_supporting" then "Doesn\x27t offer supporting 2nd charge"
         else if e.charge_position = "equitable" then "Doesn\x27t offer equitable charges"
         else "Doesn\x27t lend on " ++ pyReplace e.property_type "_" " "]
      else []
    | Option.none => []
  r1a ++ r1b ++ r2 ++ r3 ++ r4 ++ r5 ++ r6

/-- The `max_ltv` resolved for rule 6 (main.py 458-464): the parse of the
first column whose name contains the resolved LTV column token. -/
def resolvedMaxLtv (e : DealEssentials) (lender : Lender) : Option ℚ :=
  let ltv_col := get_ltv_column e.property_type e.is_regulated e.charge_position
  match lender.find? (fun p => pyIn (strLower ltv_col) (strLower p.1)) with
  | Option.some p => parse_ltv p.2
  | Option.none => Option.none

/-- The whole per-lender body of the knockout loop (main.py 393-525):
categorical rules, then the net-advance check for lenders that survived
them and have a truthy resolved gross LTV. -/
def knockoutResult (e : DealEssentials) (ltv worksPct : ℚ) (lender : Lender) :
    LenderResult :=
  let cat := categoricalReasons e worksPct lender
  let max_ltv := resolvedMaxLtv e lender
  let maxLtvTruthy : Bool := match max_ltv with
    | Option.some q => !(q = 0)
    | Option.none => false
  let net_check : Option CheckResult :=
    if cat.isEmpty && maxLtvTruthy then
      Option.some (check_net_ltv_shortfall lender ltv
        ((e.deposit_available).getD 0) e.loan_term_months e.is_refurb)
    else Option.none
  let netReasons : List String :=
    match net_check with
    | Option.some r =>
      if !r.passes then (match r.message with
        | Option.some m => [m]
        | Option.none => []) else []
    | Option.none => []
  let warningMsg : Option String :=
    match net_check with
    | Option.some r =>
      if r.passes && r.warning then r.message else Option.none
    | Option.none => Option.none
  let comfy : Bool :=
    match net_check with
    | Option.some r => r.passes && !r.warning && r.comfortable
    | Option.none => false
  { lender := lender
    exclusion_reasons := cat ++ netReasons
    calculated_ltv := ltv
    works_ratio_pct := worksPct
    max_gross_ltv := max_ltv
    net_ltv_warning := warningMsg
    net_ltv_comfortable := comfy
    net_check_result := net_check }

/-- The eligible/excluded partition of `apply_knockouts`. -/
structure KnockoutOutput where
  eligible : List LenderResult
  excluded : List LenderResult
deriving DecidableEq, Repr

/-- The partitioning loop of `apply_knockouts` (main.py 393-525), in
catalogue order. -/
def knockoutLoop (e : DealEssentials) (ltv worksPct : ℚ) :
    List Lender → KnockoutOutput
  | [] => { eligible := [], excluded := [] }
  | l :: ls =>
    let r := knockoutResult e ltv worksPct l
    let rest := knockoutLoop e ltv worksPct ls
    if r.exclusion_reasons.isEmpty then
      { rest with eligible := r :: rest.eligible }
    else
      { rest with excluded := r :: rest.excluded }

/-- `apply_knockouts` (main.py 377-545), restricted to the partition it
returns (the summary counts and the hint bundles are derived values; the
leverage-hint computation is embedded separately below). -/
def apply_knockouts (lenders : List Lender) (e : DealEssentials) : KnockoutOutput :=
  knockoutLoop e (dealLtv e) (dealWorksPct e) lenders

/-! ## Leverage lever 1: shorter term (`src/main.py` lines 590-612) -/

/-- A shorter-term leverage hint (main.py 606-611). -/
structure ShortTermHint where
  name : String
  current_term : Int
  suggested_term : Int
  note : String
deriving DecidableEq, Repr

/-- The hint dict appended at main.py 606-611. -/
def mkShortTermHint (name : String) (loan_term shorter : Int) : ShortTermHint :=
  { name := name, current_term := loan_term, suggested_term := shorter,
    note := toString shorter ++ "m term could work" }

/-- The gross figure used by the hint generator for a problem lender
(main.py 595): the enriched `max_gross_ltv` if truthy, else the parse of
`max_ltv_1st_charge_residential_investment_property`. -/
def hintGross (r : LenderResult) : Option ℚ :=
  match r.max_gross_ltv with
  | Option.some g =>
    if !(g = 0) then Option.some g
    else parse_ltv (pyGet r.lender "max_ltv_1st_charge_residential_investment_property" (Cell.str ""))
  | Option.none =>
    parse_ltv (pyGet r.lender "max_ltv_1st_charge_residential_investment_property" (Cell.str ""))

/-- The `for shorter in shorter_terms: ... break` loop (main.py 603-612):
the first probed term whose recomputed net LTV is truthy and at least the
required LTV yields the one hint. -/
def shortTermLoop (name : String) (gross : ℚ) (rate_band proc_fee lender_min : Cell)
    (loan_term : Int) (ltv : ℚ) : List Int → List ShortTermHint
  | [] => []
  | t :: ts =>
    let net_at_shorter := estimate_net_from_gross gross rate_band proc_fee t lender_min
    if !(net_at_shorter = 0) && (net_at_shorter ≥ ltv : Bool) then
      [mkShortTermHint name loan_term t]
    else
      shortTermLoop name gross rate_band proc_fee lender_min loan_term ltv ts

/-- Lever 1 for one problem lender (main.py 600-612): when the loan term
exceeds 6 months, probe `[t for t in [6, 9] if t < loan_term]` in that
order and emit at most one hint. -/
def shorterTermHintsFor (name : String) (gross : ℚ) (rate_band proc_fee lender_min : Cell)
    (loan_term : Int) (ltv : ℚ) : List ShortTermHint :=
  if loan_term > 6 then
    shortTermLoop name gross rate_band proc_fee lender_min loan_term ltv
      (([6, 9] : List Int).filter (fun t => t < loan_term))
  else []

/-! ## Faceted refiner engine (`src/main.py` lines 1253-1551) -/

/-- `Option`-propagating filter: Python list comprehension over a predicate
that may raise (`none` = the exception escapes). -/
def filterOpt (p : α → Option Bool) : List α → Option (List α)
  | [] => Option.some []
  | x :: xs =>
    match p x with
    | Option.none => Option.none
    | Option.some b =>
      match filterOpt p xs with
      | Option.none => Option.none
      | Option.some ys => Option.some (if b then x :: ys else ys)

/-- A `'yes' in str(l.get(col, '')).lower()` refiner predicate. -/
def yesCheck (col : String) (l : Lender) : Option Bool :=
  Option.some (pyIn "yes" (strLower (pyGet l col (Cell.str "")).pyStr))

/-- A two-keyword refiner predicate (`'yes' in v or kw2 in v`). -/
def yesOrCheck (kw2 col : String) (l : Lender) : Option Bool :=
  Option.some (pyIn "yes" (strLower (pyGet l col (Cell.str "")).pyStr) ||
    pyIn kw2 (strLower (pyGet l col (Cell.str "")).pyStr))

/-- A deal-appetite refiner predicate (main.py 1521-1535):
`int(str(l.get(col, '0')).strip() or 0) >= 2`.  `int()` raises on
non-numeric text, so the result is `none` (an exception) there. -/
def appetiteCheck (col : String) (l : Lender) : Option Bool :=
  let t := pyStrip (pyGet l col (Cell.str "0")).pyStr
  if t = "" then Option.some (decide ((0 : Int) ≥ 2))
  else
    match pyInt t with
    | Option.some n => Option.some (decide (n ≥ 2))
    | Option.none => Option.none

/-- The `'never' in ...` predicate for `no_exit_fee` (main.py 1540). -/
def neverCheck (col : String) (l : Lender) : Option Bool :=
  Option.some (pyIn "never" (strLower (pyGet l col (Cell.str "")).pyStr))

/-- The `first_time_dev` predicate (main.py 1543-1544). -/
def firstTimeDevCheck (l : Lender) : Option Bool :=
  Option.some (pyIn "none" (strLower (pyGet l "minimum_borrower_experience_with_refurbs" (Cell.str "")).pyStr) ||
    (pyStrip (pyGet l "minimum_borrower_experience_with_refurbs" (Cell.str "")).pyStr = ""))

/-- The shared prefix of the fifteen deal-appetite column names. -/
def appetiteColBase : String :=
  "deal_appetite_0_won_t_consider_1_low_appetite_2_will_conside"

/-- The refiner-key → predicate table of `apply_refiners` (main.py
1507-1545); `none` for a key the engine does not know. -/
def refinerCheckFor (key : String) : Option (Lender → Option Bool) :=
  if key = "foreign_national" then Option.some (yesOrCheck "only" "can_you_lend_to_foreign_nationals")
  else if key = "expat" then Option.some (yesOrCheck "only" "can_you_lend_to_expats")
  else if key = "adverse_credit" then
    Option.some (yesOrCheck "bread" "heavy_recent_adverse_accepted_eg_missed_mortgage_payments_or")
  else if key = "bankruptcy" then Option.some (yesCheck "bankrupcy_ivas_accepted")
  else if key = "ftb" then Option.some (yesCheck "do_you_lend_to_first_time_buyers")
  else if key = "ftl" then Option.some (yesCheck "do_you_lend_to_first_time_landlords")
  else if key = "non_owner_occ" then Option.some (yesCheck "do_you_lend_to_non_owner_occupiers")
  else if key = "auction" then Option.some (appetiteCheck appetiteColBase)
  else if key = "business_stabilisation" then Option.some (appetiteCheck (appetiteColBase ++ "_1"))
  else if key = "insolvency" then Option.some (appetiteCheck (appetiteColBase ++ "_2"))
  else if key = "hmo" then Option.some (appetiteCheck (appetiteColBase ++ "_3"))
  else if key = "comm_to_resi" then Option.some (appetiteCheck (appetiteColBase ++ "_4"))
  else if key = "airspace" then Option.some (appetiteCheck (appetiteColBase ++ "_5"))
  else if key = "pre_planning" then Option.some (appetiteCheck (appetiteColBase ++ "_6"))
  else if key = "subsidence" then Option.some (appetiteCheck (appetiteColBase ++ "_7"))
  else if key = "sitting_tenant" then Option.some (appetiteCheck (appetiteColBase ++ "_8"))
  else if key = "probate" then Option.some (appetiteCheck (appetiteColBase ++ "_9"))
  else if key = "fire_flood" then Option.some (appetiteCheck (appetiteColBase ++ "_10"))
  else if key = "barn_church" then Option.some (appetiteCheck (appetiteColBase ++ "_11"))
  else if key = "developer_exit" then Option.some (appetiteCheck (appetiteColBase ++ "_12"))
  else if key = "lease_extension" then Option.some (appetiteCheck (appetiteColBase ++ "_13"))
  else if key = "refi_to_btl" then Option.some (appetiteCheck (appetiteColBase ++ "_14"))
  else if key = "dual_legal" then Option.some (yesCheck "dual_legal_rep_offered")
  else if key = "serviced_interest" then Option.some (yesCheck "serviced_interest_allowed")
  else if key = "no_exit_fee" then Option.some (neverCheck "do_you_charge_exit_fees")
  else if key = "avm_available" then
    Option.some (yesCheck "can_you_potentially_use_avms_and_or_desktops_for_residential")
  else if key = "staged_funding" then
    Option.some (yesCheck "do_you_also_offer_arrears_staged_funding_for_refurbishments")
  else if key = "first_time_dev" then Option.some firstTimeDevCheck
  else Option.none

/-- `apply_refiners` (main.py 1500-1551): filter the eligible list by each
active refiner's predicate in turn, skipping unknown keys; `none` when a
predicate raises. -/
def apply_refiners (eligible : List Lender) (active_refiners : List String) :
    Option (List Lender) :=
  match active_refiners with
  | [] => Option.some eligible
  | key :: rest =>
    match refinerCheckFor key with
    | Option.none => apply_refiners eligible rest
    | Option.some check =>
      match filterOpt check eligible with
      | Option.none => Option.none
      | Option.some filtered => apply_refiners filtered rest

/-- `count_if_added` (main.py 1265-1267): how many of the currently-refined
eligible lenders satisfy one more predicate (`none` when it raises). -/
def countIfAdded (check : Lender → Option Bool) (current_eligible : List Lender) :
    Option Nat :=
  (filterOpt check current_eligible).map List.length

/-- The remaining count reported for one refiner facet (main.py
1458-1466): the current subset size for an already-active refiner, else
`count_if_added` of its predicate. -/
def refinerRemaining (eligible : List Lender) (active_refiners : List String)
    (key : String) : Option Nat :=
  match apply_refiners eligible active_refiners with
  | Option.none => Option.none
  | Option.some current_eligible =>
    if key ∈ active_refiners then Option.some current_eligible.length
    else
      match refinerCheckFor key with
      | Option.some check => countIfAdded check current_eligible
      | Option.none => Option.none

/-! ## Helper lemmas -/

theorem knockoutLoop_eligible_eq (e : DealEssentials) (ltv wp : ℚ) (ls : List Lender) :
    (knockoutLoop e ltv wp ls).eligible =
      (ls.map (knockoutResult e ltv wp)).filter (fun r => r.exclusion_reasons.isEmpty) := by
  induction ls with
  | nil => rfl
  | cons l ls ih =>
    simp only [knockoutLoop, List.map_cons, List.filter_cons]
    by_cases h : (knockoutResult e ltv wp l).exclusion_reasons.isEmpty <;>
      simp [h, ih]

theorem knockoutLoop_excluded_eq (e : DealEssentials) (ltv wp : ℚ) (ls : List Lender) :
    (knockoutLoop e ltv wp ls).excluded =
      (ls.map (knockoutResult e ltv wp)).filter
        (fun r => !r.exclusion_reasons.isEmpty) := by
  induction ls with
  | nil => rfl
  | cons l ls ih =>
    simp only [knockoutLoop, List.map_cons, List.filter_cons]
    by_cases h : (knockoutResult e ltv wp l).exclusion_reasons.isEmpty <;>
      simp [h, ih]

theorem length_filter_add_length_filter_not (p : α → Bool) (l : List α) :
    (l.filter p).length + (l.filter (fun a => !p a)).length = l.length := by
  induction l with
  | nil => rfl
  | cons a l ih =>
    simp only [List.filter_cons]
    by_cases h : p a <;> simp [h] <;> omega

/-! ## Claim theorems -/

/-- C1: for every catalogue and every deal, the knockout filter partitions
the catalogue: the eligible list is exactly the enriched lenders with an
empty exclusion-reason list, the excluded list is exactly those with a
non-empty one, every lender appears in exactly one of the two lists
(lengths add up to the catalogue size), and membership in the excluded
(resp. eligible) list is equivalent to a non-empty (resp. empty)
exclusion-reason list. -/
theorem apply_knockouts_partition (lenders : List Lender) (e : DealEssentials) :
    (apply_knockouts lenders e).eligible =
      (lenders.map (knockoutResult e (dealLtv e) (dealWorksPct e))).filter
        (fun r => r.exclusion_reasons.isEmpty)
    ∧ (apply_knockouts lenders e).excluded =
      (lenders.map (knockoutResult e (dealLtv e) (dealWorksPct e))).filter
        (fun r => !r.exclusion_reasons.isEmpty)
    ∧ (apply_knockouts lenders e).eligible.length +
        (apply_knockouts lenders e).excluded.length = lenders.length
    ∧ (∀ r : LenderResult, r ∈ (apply_knockouts lenders e).excluded ↔
        (r ∈ lenders.map (knockoutResult e (dealLtv e) (dealWorksPct e)) ∧
          r.exclusion_reasons ≠ []))
    ∧ (∀ r : LenderResult, r ∈ (apply_knockouts lenders e).eligible ↔
        (r ∈ lenders.map (knockoutResult e (dealLtv e) (dealWorksPct e)) ∧
          r.exclusion_reasons = [])) := by
  unfold apply_knockouts
  refine ⟨knockoutLoop_eligible_eq _ _ _ _, knockoutLoop_excluded_eq _ _ _ _, ?_, ?_, ?_⟩
  · rw [knockoutLoop_eligible_eq, knockoutLoop_excluded_eq,
      length_filter_add_length_filter_not, List.length_map]
  · intro r
    rw [knockoutLoop_excluded_eq, List.mem_filter]
    simp [List.isEmpty_iff]
  · intro r
    rw [knockoutLoop_eligible_eq, List.mem_filter]
    simp [List.isEmpty_iff]

theorem classifyNet_spec (R est : ℚ) (t : Int) (hest : est ≠ 0) :
    ((classifyNet R est t defaultCheckResult).passes = false ↔
      5 < (if R > 0 then (R - est) / R * 100 else 0))
    ∧ ((classifyNet R est t defaultCheckResult).warning = true ↔
      (0 < (if R > 0 then (R - est) / R * 100 else 0) ∧
        (if R > 0 then (R - est) / R * 100 else 0) ≤ 5))
    ∧ ((classifyNet R est t defaultCheckResult).comfortable = true ↔
      (if R > 0 then (R - est) / R * 100 else 0) < -5)
    ∧ ((classifyNet R est t defaultCheckResult).message = Option.none ↔
      (if R > 0 then (R - est) / R * 100 else 0) ≤ 0) := by
  simp only [classifyNet, hest, if_false]
  set spct := (if R > 0 then (R - est) / R * 100 else 0) with hs
  split_ifs with h1 h2 h3 <;> simp [defaultCheckResult] <;>
    exact ⟨by linarith,
      by first
        | exact fun h => by linarith
        | exact ⟨by linarith, by linarith⟩,
      by linarith, by linarith⟩


/-- The concrete lender of the C2 counterexample: gross 50, rate band 8%/m,
proc fee 4%, minimum months 3, so at a 12-month term the deduction is
exactly 100% and the estimated net is exactly 0. -/
def zeroNetLender : Lender :=
  [("name", Cell.str "ZeroNet"),
   ("max_ltv_1st_charge_residential_investment_property", Cell.str "50"),
   ("approximate_interest_rate_band", Cell.str "8"),
   ("typical_proc_fee", Cell.str "4"),
   ("minimum_number_of_months_interest", Cell.str "3")]

/-- C2 counterexample: at gross 50, rate band "8", proc fee "4", minimum
months "3", loan term 12 and required LTV 75, the estimated net is exactly
0, so the claimed shortfall percentage is 100 (> 5, hence "fails" per the
claim), yet `check_net_ltv_shortfall` passes with no flag and no message:
the classification block is skipped whenever the estimate is falsy. -/
theorem net_boundary_counterexample :
    estimate_net_from_gross 50 (Cell.str "8") (Cell.str "4") 12 (Cell.str "3") = 0
    ∧ ((75 : ℚ) - estimate_net_from_gross 50 (Cell.str "8") (Cell.str "4") 12 (Cell.str "3"))
        / 75 * 100 > 5
    ∧ (check_net_ltv_shortfall zeroNetLender 75 0 12 false).passes = true
    ∧ (check_net_ltv_shortfall zeroNetLender 75 0 12 false).warning = false
    ∧ (check_net_ltv_shortfall zeroNetLender 75 0 12 false).comfortable = false
    ∧ (check_net_ltv_shortfall zeroNetLender 75 0 12 false).message = Option.none := by
  decide

/-- C2 (amended): provided the estimated net LTV is nonzero, the
net-advance classification is a function of the six inputs determined by
`shortfall_pct = (R - est) / R * 100` (0 when `R <= 0`): it fails iff
`shortfall_pct > 5` (so exactly 5% shortfall warns, not fails), warns iff
`0 < shortfall_pct <= 5`, is comfortable iff `shortfall_pct < -5`, and
carries no message iff `shortfall_pct <= 0`.  (When the estimate is
exactly 0 the classification is skipped and the check passes with no
flag.) -/
theorem net_classification_boundaries (gross : ℚ) (rate proc minm : Cell)
    (term : Int) (required : ℚ)
    (hest : estimate_net_from_gross gross rate proc term minm ≠ 0) :
    ((classifyNet required (estimate_net_from_gross gross rate proc term minm) term
        defaultCheckResult).passes = false ↔
      5 < (if required > 0 then
        (required - estimate_net_from_gross gross rate proc term minm) / required * 100 else 0))
    ∧ ((classifyNet required (estimate_net_from_gross gross rate proc term minm) term
        defaultCheckResult).warning = true ↔
      (0 < (if required > 0 then
        (required - estimate_net_from_gross gross rate proc term minm) / required * 100 else 0) ∧
       (if required > 0 then
        (required - estimate_net_from_gross gross rate proc term minm) / required * 100 else 0) ≤ 5))
    ∧ ((classifyNet required (estimate_net_from_gross gross rate proc term minm) term
        defaultCheckResult).comfortable = true ↔
      (if required > 0 then
        (required - estimate_net_from_gross gross rate proc term minm) / required * 100 else 0) < -5)
    ∧ ((classifyNet required (estimate_net_from_gross gross rate proc term minm) term
        defaultCheckResult).message = Option.none ↔
      (if required > 0 then
        (required - estimate_net_from_gross gross rate proc term minm) / required * 100 else 0) ≤ 0) :=
  classifyNet_spec required (estimate_net_from_gross gross rate proc term minm) term hest

/-- C2 witness: at gross 75, rate band "1", proc fee "2", minimum months
"3", term 12 and required LTV 50 the estimate (64.5) is nonzero and the
theorem instantiates; the "comfortable" conjunct is exercised. -/
theorem net_classification_boundaries_witness :
    ((classifyNet 50 (estimate_net_from_gross 75 (Cell.str "1") (Cell.str "2") 12 (Cell.str "3")) 12
        defaultCheckResult).comfortable = true ↔
      (if (50 : ℚ) > 0 then
        ((50 : ℚ) - estimate_net_from_gross 75 (Cell.str "1") (Cell.str "2") 12 (Cell.str "3"))
          / 50 * 100 else 0) < -5) :=
  (net_classification_boundaries 75 (Cell.str "1") (Cell.str "2") (Cell.str "3") 12 50
    (by decide)).2.2.1

/-- C3: for every gross LTV and every rate-band / proc-fee /
minimum-months text, the estimator computes
`gross * (1 - (fee_pct + monthly_rate * max(term, lender_min)) / 100)`
where `fee_pct` is the proc-fee parse (default 2, and 1.5 on
"negotiable" / "no set" text), `monthly_rate` is the rate-band midpoint
defaulting to 1 when unparseable, and `lender_min` is the minimum-months
parse defaulting to 3 when unparseable; the stated defaults are exercised
on concrete unparseable inputs. -/
theorem estimate_net_formula :
    (∀ (gross : ℚ) (rate proc minm : Cell) (term : Int),
      estimate_net_from_gross gross rate proc term minm =
        gross * (1 - (parse_proc_fee proc +
          ((parse_rate_band_midpoint rate).getD 1) *
            ((max term (parse_min_months minm) : Int) : ℚ)) / 100))
    ∧ parse_proc_fee (Cell.str "") = 2
    ∧ parse_proc_fee (Cell.str "tbc") = 2
    ∧ parse_proc_fee (Cell.str "Negotiable") = 3 / 2
    ∧ parse_proc_fee (Cell.str "no set fee") = 3 / 2
    ∧ (parse_rate_band_midpoint (Cell.str "tbc")).getD 1 = 1
    ∧ (parse_rate_band_midpoint (Cell.str "")).getD 1 = 1
    ∧ parse_min_months (Cell.str "") = 3
    ∧ parse_min_months (Cell.str "tbc") = 3 := by
  refine ⟨?_, by decide, by decide, by decide, by decide, by decide, by decide,
    by decide, by decide⟩
  intro gross rate proc minm term
  by_cases hg : gross = 0
  · simp [estimate_net_from_gross, hg]
  · simp only [estimate_net_from_gross, if_neg hg]
    unfold parse_proc_fee parse_rate_band_midpoint parse_min_months
    by_cases hp : proc.truthy <;> by_cases hr : rate.truthy <;>
      by_cases hm : minm.truthy <;>
      simp only [hp, hr, hm, Bool.not_true, Bool.not_false, if_true, if_false,
        Bool.false_eq_true, Bool.true_eq_false, ite_true, ite_false] <;>
      first
      | rfl
      | (rcases hfa : findAllNumTok (strLower rate.pyStr).data with _ | ⟨r0, _ | ⟨r1, rest⟩⟩ <;>
          simp [hfa])

/-- C4: the currency parser's documented examples, evaluated on the code.
`"£1,250,000"` and `"250k"` parse as documented and empty/absent input
gives the no-value sentinel, but `"1.5m"` parses to 1.5, not 1,500,000:
the `m` expansion appends the text "000000", so `"1.5m"` becomes
`"1.5000000"` and the suffix never multiplies a decimal mantissa. -/
theorem parse_number_examples :
    parse_number (Cell.str "£1,250,000") = Option.some 1250000
    ∧ parse_number (Cell.str "250k") = Option.some 250000
    ∧ parse_number (Cell.str "1.5m") = Option.some (3 / 2)
    ∧ ¬ parse_number (Cell.str "1.5m") = Option.some 1500000
    ∧ parse_number (Cell.str "") = Option.none
    ∧ parse_number Cell.none = Option.none
    ∧ ¬ parse_number (Cell.str "") = Option.some 0 := by
  decide

/-- The concrete lender of the C5 counterexample: a non-numeric
deal-appetite cell ("tbc"). -/
def tbcAppetiteLender : Lender :=
  [("name", Cell.str "Tbc"),
   ("deal_appetite_0_won_t_consider_1_low_appetite_2_will_conside", Cell.str "tbc"),
   ("do_you_lend_to_first_time_buyers", Cell.str "Yes")]

/-- C5: the deal-appetite refiner predicate is not total — on non-numeric
text such as "tbc" the Python `int()` call raises `ValueError` (modelled
as `none`), and the exception propagates out of `apply_refiners`; the
same lender is filtered fine by a yes/no refiner, and the value parsers
return their sentinel instead of raising on the same text. -/
theorem refiner_predicate_raises :
    appetiteCheck appetiteColBase tbcAppetiteLender = Option.none
    ∧ apply_refiners [tbcAppetiteLender] ["auction"] = Option.none
    ∧ apply_refiners [tbcAppetiteLender] ["ftb"] = Option.some [tbcAppetiteLender]
    ∧ parse_number (Cell.str "tbc") = Option.none
    ∧ parse_ltv (Cell.str "tbc") = Option.none := by
  decide

/-- C6 counterexample data: a lender with only a maximum loan size. -/
def maxOnlyLender : Lender :=
  [("name", Cell.str "X"), ("maximum_loan_size", Cell.str "2000000")]

/-- C6 counterexample data: a lender with only a minimum loan size. -/
def minOnlyLender : Lender :=
  [("name", Cell.str "Y"), ("minimum_loan_size", Cell.str "2500000")]

/-- C6 counterexample data: the original deal (loan 1,000,000). -/
def smallLoanDeal : DealEssentials :=
  { loan_amount := 1000000, market_value := 10000000 }

/-- C6 counterexample data: the tightened deal — the same deal with the
loan amount raised to 3,000,000, beyond lender X's 2,000,000 maximum. -/
def bigLoanDeal : DealEssentials :=
  { smallLoanDeal with loan_amount := 3000000 }

/-- C6 counterexample: increasing the loan amount beyond lender X's
maximum (1,000,000 → 3,000,000, all other deal fields fixed) moves lender
Y from excluded (below its 2,500,000 minimum) to eligible — the knockout
partition is not globally monotone under this tightening. -/
theorem knockout_monotonicity_counterexample :
    bigLoanDeal = { smallLoanDeal with loan_amount := 3000000 }
    ∧ parse_number (pyGet maxOnlyLender "maximum_loan_size" Cell.none) = Option.some 2000000
    ∧ smallLoanDeal.loan_amount < bigLoanDeal.loan_amount
    ∧ (2000000 : ℚ) < bigLoanDeal.loan_amount
    ∧ ((apply_knockouts [maxOnlyLender, minOnlyLender] smallLoanDeal).excluded.map
        (fun r => pyGet r.lender "name" Cell.none)) = [Cell.str "Y"]
    ∧ ((apply_knockouts [maxOnlyLender, minOnlyLender] smallLoanDeal).eligible.map
        (fun r => pyGet r.lender "name" Cell.none)) = [Cell.str "X"]
    ∧ ((apply_knockouts [maxOnlyLender, minOnlyLender] bigLoanDeal).eligible.map
        (fun r => pyGet r.lender "name" Cell.none)) = [Cell.str "Y"]
    ∧ ((apply_knockouts [maxOnlyLender, minOnlyLender] bigLoanDeal).excluded.map
        (fun r => pyGet r.lender "name" Cell.none)) = [Cell.str "X"] := by
  decide

theorem categoricalReasons_ne_nil_of_above_max (e : DealEssentials) (wp : ℚ)
    (l : Lender) (M : ℚ)
    (hp : parse_number (pyGet l "maximum_loan_size" Cell.none) = Option.some M)
    (hM : M ≠ 0) (hlt : M < e.loan_amount) :
    categoricalReasons e wp l ≠ [] := by
  simp only [categoricalReasons, hp]
  intro hcontra
  rcases List.append_eq_nil.mp hcontra with ⟨h1, h2⟩
  rcases List.append_eq_nil.mp h1 with ⟨h3, h4⟩
  rcases List.append_eq_nil.mp h3 with ⟨h5, h6⟩
  rcases List.append_eq_nil.mp h5 with ⟨h7, h8⟩
  rcases List.append_eq_nil.mp h7 with ⟨h9, h10⟩
  rcases List.append_eq_nil.mp h9 with ⟨h11, h12⟩
  rw [if_pos (by simp [hM, hlt])] at h12
  exact List.cons_ne_nil _ _ h12

theorem knockoutResult_reasons_ne_nil_of_above_max (e : DealEssentials)
    (ltv wp : ℚ) (l : Lender) (M : ℚ)
    (hp : parse_number (pyGet l "maximum_loan_size" Cell.none) = Option.some M)
    (hM : M ≠ 0) (hlt : M < e.loan_amount) :
    (knockoutResult e ltv wp l).exclusion_reasons ≠ [] := by
  simp only [knockoutResult]
  intro hcontra
  exact categoricalReasons_ne_nil_of_above_max e wp l M hp hM hlt
    (List.append_eq_nil.mp hcontra).1

/-- C6 (amended): per-lender monotonicity holds for the maximum-loan rule
— a lender whose parsed, non-zero maximum loan size is below the deal's
loan amount is excluded, and remains excluded when the loan amount is
increased further (all other deal fields fixed).  Global monotonicity of
the partition fails: the counterexample shows the same increase can move
a different lender (excluded only for being below its minimum) from
excluded to eligible. -/
theorem above_max_loan_monotone (lenders : List Lender) (e : DealEssentials)
    (l : Lender) (M a2 : ℚ)
    (hmem : l ∈ lenders)
    (hp : parse_number (pyGet l "maximum_loan_size" Cell.none) = Option.some M)
    (hM : M ≠ 0) (hlt : M < e.loan_amount) (hle : e.loan_amount ≤ a2) :
    (knockoutResult e (dealLtv e) (dealWorksPct e) l)
      ∈ (apply_knockouts lenders e).excluded
    ∧ (knockoutResult { e with loan_amount := a2 }
         (dealLtv { e with loan_amount := a2 })
         (dealWorksPct { e with loan_amount := a2 }) l)
        ∈ (apply_knockouts lenders { e with loan_amount := a2 }).excluded := by
  constructor
  · unfold apply_knockouts
    rw [knockoutLoop_excluded_eq, List.mem_filter]
    refine ⟨List.mem_map_of_mem _ hmem, ?_⟩
    simpa using knockoutResult_reasons_ne_nil_of_above_max e _ _ l M hp hM hlt
  · unfold apply_knockouts
    rw [knockoutLoop_excluded_eq, List.mem_filter]
    refine ⟨List.mem_map_of_mem _ hmem, ?_⟩
    simpa using knockoutResult_reasons_ne_nil_of_above_max _ _ _ l M hp hM
      (lt_of_lt_of_le hlt hle)

/-- C6 witness: lender X (maximum 2,000,000) is excluded at a 3,000,000
loan and stays excluded at 4,000,000. -/
theorem above_max_loan_monotone_witness :
    (knockoutResult bigLoanDeal (dealLtv bigLoanDeal) (dealWorksPct bigLoanDeal) maxOnlyLender)
      ∈ (apply_knockouts [maxOnlyLender] bigLoanDeal).excluded
    ∧ (knockoutResult { bigLoanDeal with loan_amount := 4000000 }
         (dealLtv { bigLoanDeal with loan_amount := 4000000 })
         (dealWorksPct { bigLoanDeal with loan_amount := 4000000 }) maxOnlyLender)
        ∈ (apply_knockouts [maxOnlyLender]
            { bigLoanDeal with loan_amount := 4000000 }).excluded :=
  above_max_loan_monotone [maxOnlyLender] bigLoanDeal maxOnlyLender 2000000 4000000
    (List.mem_cons_self _ _) (by decide) (by decide) (by decide) (by decide)

theorem classifyNet_message_cases (R est : ℚ) (t : Int) (r : CheckResult) :
    (classifyNet R est t r).message = r.message
    ∨ (classifyNet R est t r).message = Option.some (insufficientMsg t)
    ∨ (classifyNet R est t r).message = Option.some (tightMsg t) := by
  unfold classifyNet
  split_ifs <;> (try simp) <;> (try (split_ifs <;> simp))

/-- C7: the net-advance check never surfaces the estimated numeric net
LTV — for every lender record and every input, the message of the check
result is either absent or one of the two fixed advisory strings
parameterised only by the loan term in months. -/
theorem net_check_message_never_reveals_estimate (lender : Lender)
    (required deposit : ℚ) (term : Int) (b : Bool) :
    (check_net_ltv_shortfall lender required deposit term b).message = Option.none
    ∨ (check_net_ltv_shortfall lender required deposit term b).message =
        Option.some (insufficientMsg term)
    ∨ (check_net_ltv_shortfall lender required deposit term b).message =
        Option.some (tightMsg term) := by
  unfold check_net_ltv_shortfall
  rcases hg : grossLookup lender with _ | v
  · simp [defaultCheckResult]
  · simp only []
    rcases hp : parse_ltv v with _ | g
    · simp [hg, hp, defaultCheckResult]
    · simp only [hg, hp]
      by_cases hz : g = 0
      · simp [hz, defaultCheckResult]
      · simp only [hz, if_false]
        have := classifyNet_message_cases required
          (if netKeywordFlag lender || bmvFlag lender ||
              (match grossLookup lender with
               | Option.some v => pyIn "net" (strLower v.strOrEmpty)
               | Option.none => false) = true then g
           else
             estimate_net_from_gross g
               (pyGet lender "approximate_interest_rate_band" (Cell.str ""))
               (pyGet lender "typical_proc_fee" (Cell.str "")) term
               (pyGet lender "minimum_number_of_months_interest" (Cell.str "")))
          term
          { defaultCheckResult with
              is_net_lender :=
                netKeywordFlag lender || bmvFlag lender ||
                  (match grossLookup lender with
                   | Option.some v => pyIn "net" (strLower v.strOrEmpty)
                   | Option.none => false) }
        simpa [defaultCheckResult, hg] using this

theorem shortTermLoop_eq_find (name : String) (gross : ℚ) (rate proc minm : Cell)
    (term : Int) (ltv : ℚ) (ts : List Int) :
    shortTermLoop name gross rate proc minm term ltv ts =
      (Option.map (fun t => mkShortTermHint name term t)
        (ts.find? (fun t => !(estimate_net_from_gross gross rate proc t minm = 0) &&
          (estimate_net_from_gross gross rate proc t minm ≥ ltv : Bool)))).toList := by
  induction ts with
  | nil => rfl
  | cons t ts ih =>
    unfold shortTermLoop
    cases hb : (!(estimate_net_from_gross gross rate proc t minm = 0) &&
        (estimate_net_from_gross gross rate proc t minm ≥ ltv : Bool))
    · rw [if_neg (by simp [hb])]
      simp only [List.find?, hb]
      exact ih
    · rw [if_pos (by simp [hb])]
      simp only [List.find?, hb]
      rfl

/-- C8 (amended): for a problem lender's gross figure and a deal with loan
term above 6 months, the shorter-term lever probes the hypothetical terms
6 months then 9 months (in that order — not 9 then 6), keeps only terms
strictly shorter than the current loan term, re-derives the estimated net
LTV at each probed term, and emits at most one hint per lender: the one
for the first probed term whose recomputed net LTV is truthy and at least
the deal's required LTV. -/
theorem shorter_term_lever_characterization (name : String) (gross : ℚ)
    (rate proc minm : Cell) (term : Int) (ltv : ℚ) (hterm : 6 < term) :
    shorterTermHintsFor name gross rate proc minm term ltv =
      (Option.map (fun t => mkShortTermHint name term t)
        ((([6, 9] : List Int).filter (fun t => t < term)).find?
          (fun t => !(estimate_net_from_gross gross rate proc t minm = 0) &&
            (estimate_net_from_gross gross rate proc t minm ≥ ltv : Bool)))).toList
    ∧ (shorterTermHintsFor name gross rate proc minm term ltv).length ≤ 1
    ∧ ∀ h2 ∈ shorterTermHintsFor name gross rate proc minm term ltv,
        h2.suggested_term < term ∧ h2.current_term = term ∧
          (h2.suggested_term = 6 ∨ h2.suggested_term = 9) := by
  have heq : shorterTermHintsFor name gross rate proc minm term ltv =
      (Option.map (fun t => mkShortTermHint name term t)
        ((([6, 9] : List Int).filter (fun t => t < term)).find?
          (fun t => !(estimate_net_from_gross gross rate proc t minm = 0) &&
            (estimate_net_from_gross gross rate proc t minm ≥ ltv : Bool)))).toList := by
    unfold shorterTermHintsFor
    rw [if_pos hterm]
    exact shortTermLoop_eq_find name gross rate proc minm term ltv _
  refine ⟨heq, ?_, ?_⟩
  · rw [heq]
    have hlen : ∀ (o : Option ShortTermHint), o.toList.length ≤ 1 := by
      intro o; cases o <;> simp
    exact hlen _
  · intro h2 hmem
    rw [heq] at hmem
    rcases hf : ((([6, 9] : List Int).filter (fun t => t < term)).find?
        (fun t => !(estimate_net_from_gross gross rate proc t minm = 0) &&
          (estimate_net_from_gross gross rate proc t minm ≥ ltv : Bool))) with _ | t
    · rw [hf] at hmem; simp at hmem
    · rw [hf] at hmem
      simp at hmem
      subst hmem
      have htmem := List.mem_of_find?_eq_some hf
      rw [List.mem_filter] at htmem
      obtain ⟨hmem69, hlt⟩ := htmem
      have hlt2 : t < term := by simpa using hlt
      have h69 : t = 6 ∨ t = 9 := by simpa using hmem69
      exact ⟨hlt2, rfl, h69⟩

/-- C8 counterexample: with gross 75, rate band "1", proc fee "2", minimum
months "3", loan term 12 and required LTV 50, both the 6-month and the
9-month recomputed nets clear the requirement (69 and 66.75), and the
emitted hint suggests 6 — the code probes 6 before 9, not "9 then 6" as
claimed. -/
theorem shorter_term_order_counterexample :
    shorterTermHintsFor "L" 75 (Cell.str "1") (Cell.str "2") (Cell.str "3") 12 50 =
      [{ name := "L", current_term := 12, suggested_term := 6,
         note := "6m term could work" }]
    ∧ (50 : ℚ) ≤ estimate_net_from_gross 75 (Cell.str "1") (Cell.str "2") 9 (Cell.str "3")
    ∧ ¬ estimate_net_from_gross 75 (Cell.str "1") (Cell.str "2") 9 (Cell.str "3") = 0
    ∧ (50 : ℚ) ≤ estimate_net_from_gross 75 (Cell.str "1") (Cell.str "2") 6 (Cell.str "3") := by
  decide

/-- C8 witness: the characterization instantiated at the counterexample
inputs (term 12 > 6). -/
theorem shorter_term_lever_characterization_witness :
    (shorterTermHintsFor "L" 75 (Cell.str "1") (Cell.str "2") (Cell.str "3") 12 50).length ≤ 1 :=
  (shorter_term_lever_characterization "L" 75 (Cell.str "1") (Cell.str "2") (Cell.str "3")
    12 50 (by decide)).2.1

theorem filterOpt_some_eq {α : Type} (p : α → Option Bool) (l : List α) (r : List α)
    (h : filterOpt p l = Option.some r) :
    r = l.filter (fun x => p x = Option.some true) := by
  induction l generalizing r with
  | nil =>
    simp only [filterOpt] at h
    cases h
    rfl
  | cons x xs ih =>
    simp only [filterOpt] at h
    rcases hx : p x with _ | b
    · rw [hx] at h; cases h
    · rw [hx] at h
      rcases hxs : filterOpt p xs with _ | ys
      · rw [hxs] at h; cases h
      · rw [hxs] at h
        cases h
        cases b
        · simp [List.filter_cons, hx, ih ys hxs]
        · simp [List.filter_cons, hx, ih ys hxs]

/-- Does one lender pass every known refiner in the key list (with
`some true` results)? -/
def passesAllRefiners (keys : List String) (l : Lender) : Bool :=
  keys.all (fun k =>
    match refinerCheckFor k with
    | Option.none => true
    | Option.some check => check l = Option.some true)

theorem apply_refiners_some_eq (eligible : List Lender) (keys : List String)
    (r : List Lender) (h : apply_refiners eligible keys = Option.some r) :
    r = eligible.filter (passesAllRefiners keys) := by
  induction keys generalizing eligible r with
  | nil =>
    simp only [apply_refiners] at h
    cases h
    rw [(List.filter_eq_self.mpr (fun a _ => rfl) :
      eligible.filter (passesAllRefiners []) = eligible)]
  | cons k ks ih =>
    simp only [apply_refiners] at h
    rcases hk : refinerCheckFor k with _ | check
    · simp only [hk] at h
      rw [ih eligible r h]
      apply List.filter_congr
      intro x _
      simp [passesAllRefiners, hk]
    · simp only [hk] at h
      rcases hf : filterOpt check eligible with _ | filtered
      · simp only [hf] at h
        exact Option.noConfusion h
      · simp only [hf] at h
        rw [ih filtered r h, filterOpt_some_eq check eligible filtered hf,
          List.filter_filter]
        apply List.filter_congr
        intro x _
        simp only [passesAllRefiners, List.all_cons, hk]
        rw [Bool.and_comm]

theorem filter_sublist_filter_of_imp {α : Type} (p q : α → Bool) (l : List α)
    (himp : ∀ a, p a = true → q a = true) :
    (l.filter p).Sublist (l.filter q) := by
  induction l with
  | nil => simp
  | cons a l ih =>
    simp only [List.filter_cons]
    by_cases hp : p a = true
    · rw [if_pos hp, if_pos (himp a hp)]
      exact ih.cons₂ a
    · rw [if_neg hp]
      by_cases hq : q a = true
      · rw [if_pos hq]
        exact ih.cons a
      · rw [if_neg hq]
        exact ih

/-- C9: (a) every refiner facet's reported remaining count is at most the
size of the currently-active-refined eligible subset, and (b) applying a
superset of active refiner keys yields a sublist (hence a subset, of no
greater length) of what any subset of them yields, whenever both runs
complete without a predicate raising. -/
theorem refiner_counts_antitone :
    (∀ (eligible : List Lender) (active : List String) (key : String)
       (cur : List Lender) (n : Nat),
       apply_refiners eligible active = Option.some cur →
       refinerRemaining eligible active key = Option.some n →
       n ≤ cur.length)
    ∧ (∀ (eligible : List Lender) (s1 s2 : List String) (r1 r2 : List Lender),
       (∀ k ∈ s1, k ∈ s2) →
       apply_refiners eligible s1 = Option.some r1 →
       apply_refiners eligible s2 = Option.some r2 →
       r2.Sublist r1 ∧ r2.length ≤ r1.length) := by
  constructor
  · intro eligible active key cur n hcur hrem
    unfold refinerRemaining at hrem
    simp only [hcur] at hrem
    by_cases hact : key ∈ active
    · simp only [if_pos hact] at hrem
      cases hrem
      exact Nat.le_refl _
    · simp only [if_neg hact] at hrem
      rcases hk : refinerCheckFor key with _ | check
      · simp only [hk] at hrem
        exact Option.noConfusion hrem
      · simp only [hk, countIfAdded] at hrem
        rcases hf : filterOpt check cur with _ | filtered
        · simp only [hf, Option.map_none'] at hrem
          exact Option.noConfusion hrem
        · simp only [hf, Option.map_some'] at hrem
          cases hrem
          rw [filterOpt_some_eq check cur filtered hf]
          exact List.length_filter_le _ _
  · intro eligible s1 s2 r1 r2 hsub h1 h2
    have he1 := apply_refiners_some_eq eligible s1 r1 h1
    have he2 := apply_refiners_some_eq eligible s2 r2 h2
    subst he1; subst he2
    have hs : (eligible.filter (passesAllRefiners s2)).Sublist
        (eligible.filter (passesAllRefiners s1)) := by
      apply filter_sublist_filter_of_imp
      intro a ha
      simp only [passesAllRefiners, List.all_eq_true] at ha ⊢
      intro k hk
      exact ha k (hsub k hk)
    exact ⟨hs, hs.length_le⟩

/-- C9 witness: with one lender that answers "Yes" to first-time buyers,
the empty refiner set and the singleton `ftb` set both succeed; the facet
count is bounded and the refined list is a sublist. -/
theorem refiner_counts_antitone_witness :
    (1 ≤ ([tbcAppetiteLender] : List Lender).length)
    ∧ ([tbcAppetiteLender] : List Lender).Sublist [tbcAppetiteLender] :=
  ⟨(refiner_counts_antitone.1 [tbcAppetiteLender] [] "ftb" [tbcAppetiteLender] 1
      (by decide) (by decide)),
   (refiner_counts_antitone.2 [tbcAppetiteLender] [] ["ftb"] [tbcAppetiteLender]
      [tbcAppetiteLender] (by simp) (by decide) (by decide)).1⟩

/-- C10: when no attribute of the lender record resolves to a parseable,
non-zero gross LTV for the net-advance check (the lookup requires a key
containing `max_ltv`, `residential` and `1st`), the check returns
`passes = true`, `warning = false`, `comfortable = false` and no message,
so such a lender is never excluded, warned or promoted on net-advance
grounds regardless of the required LTV. -/
theorem missing_gross_check_defaults (lender : Lender) (required deposit : ℚ)
    (term : Int) (b : Bool)
    (h : ∀ p ∈ lender, grossCol p.1 = true →
        (parse_ltv p.2 = Option.none ∨ parse_ltv p.2 = Option.some 0)) :
    (check_net_ltv_shortfall lender required deposit term b).passes = true
    ∧ (check_net_ltv_shortfall lender required deposit term b).warning = false
    ∧ (check_net_ltv_shortfall lender required deposit term b).comfortable = false
    ∧ (check_net_ltv_shortfall lender required deposit term b).message = Option.none := by
  unfold check_net_ltv_shortfall
  rcases hfind : lender.find? (fun p => grossCol p.1) with _ | p
  · have hg : grossLookup lender = Option.none := by simp [grossLookup, hfind]
    simp [hg, defaultCheckResult]
  · have hg : grossLookup lender = Option.some p.2 := by simp [grossLookup, hfind]
    have hmem := List.mem_of_find?_eq_some hfind
    have hcol : grossCol p.1 = true := by
      have hpred := List.find?_some hfind
      simpa using hpred
    rcases h p hmem hcol with hnone | hzero
    · simp [hg, hnone, defaultCheckResult]
    · simp [hg, hzero, defaultCheckResult]

/-- C10 witness: a lender with no gross-LTV column at all. -/
theorem missing_gross_check_defaults_witness :
    (check_net_ltv_shortfall [("name", Cell.str "NoLtv")] 75 0 12 false).passes = true
    ∧ (check_net_ltv_shortfall [("name", Cell.str "NoLtv")] 75 0 12 false).warning = false
    ∧ (check_net_ltv_shortfall [("name", Cell.str "NoLtv")] 75 0 12 false).comfortable = false
    ∧ (check_net_ltv_shortfall [("name", Cell.str "NoLtv")] 75 0 12 false).message =
        Option.none :=
  missing_gross_check_defaults [("name", Cell.str "NoLtv")] 75 0 12 false (by decide)
